import Mathlib

/-!
Shallow embedding of the guardrail-admin client core. The repository holds
three near-duplicate page variants: two in src/app/page.tsx (called the
first and second variant below, in file order) and one in
src/unnamed/part_000 (the third variant). JavaScript numbers that can be
NaN are modelled as `Option ℚ` with `none` for NaN; absent JSON fields as
`Option`; the network as an explicit argument (the settled result of a
fetch, with its arrival time where timing matters).
-/

namespace Guardrail

/-- Closed set of redaction tags (type RedactionType in the source). -/
inductive RedactionType
  | email | phone | ssn | credit_card | name | other
deriving DecidableEq

/-- JavaScript string value of a redaction tag (the string union's members). -/
def tagStr : RedactionType → String
  | .email => "email"
  | .phone => "phone"
  | .ssn => "ssn"
  | .credit_card => "credit_card"
  | .name => "name"
  | .other => "other"

/-- Metrics payload as the second variant declares it (interface Metrics,
src/app/page.tsx lines 200-205): flagged_count and flagged_outputs are both
optional aliases; an arbitrary backend payload may omit any field, so every
field is an Option here. -/
structure MetricsPayload where
  total_requests : Option Int
  flagged_count : Option Int
  flagged_outputs : Option Int
  flag_rate : Option ℚ
deriving DecidableEq

/-- KPI derivation of the second variant (src/app/page.tsx lines 322-325):
const flaggedOutputs = metrics?.flagged_outputs ?? metrics?.flagged_count ?? 0. -/
def flaggedOutputs (metrics : Option MetricsPayload) : Int :=
  match metrics with
  | none => 0
  | some m =>
    match m.flagged_outputs with
    | some v => v
    | none => m.flagged_count.getD 0

/-- JavaScript Number.prototype.toFixed(1) on an exact rational: the integer
n for which n / 10 is closest to the argument, the larger n on a tie
(ECMA-262 Number.prototype.toFixed step: "if there are two such n, pick the
larger n"), printed with one digit after the point. -/
def toFixed1 (x : ℚ) : String :=
  let n : ℤ := ⌊x * 10 + 1 / 2⌋
  (if n < 0 then "-" else "") ++ toString (n.natAbs / 10) ++ "." ++ toString (n.natAbs % 10)

/-- formatRate of the second page variant (src/app/page.tsx lines 240-243):
"0%" when Number.isNaN(rate), otherwise (rate * 100).toFixed(1) + "%". -/
def formatRateB : Option ℚ → String
  | none => "0%"
  | some q => toFixed1 (q * 100) ++ "%"

/-- formatRate of the third variant (src/unnamed/part_000 line 31):
((n || 0) * 100).toFixed(1) + "%". The falsy numbers are NaN and 0, and
(0 || 0) = 0, so (n || 0) is 0 for NaN and n otherwise: Option.getD n 0. -/
def formatRateC (n : Option ℚ) : String :=
  toFixed1 (n.getD 0 * 100) ++ "%"

/-- Action the scan form handler takes before any transport use: the local
rejection of the input (the guard's early return, the spec's
ValidationError) or a POST carrying the prompt. -/
inductive ScanSubmit
  | validationError
  | post (url body : String)
deriving DecidableEq

/-- JavaScript String.prototype.trim(): the string without its leading and
trailing whitespace. -/
def jsTrim (s : String) : String :=
  String.mk (((s.data.dropWhile Char.isWhitespace).reverse.dropWhile Char.isWhitespace).reverse)

/-- onSubmitPrompt guard and request of the second and third variants
(src/app/page.tsx lines 282-295, src/unnamed/part_000 lines 59-67):
if (!prompt.trim() || !API_URL) return; else POST {prompt} to API_URL/scan.
A JS string is falsy exactly when it is empty. -/
def onSubmitPrompt (apiUrl prompt : String) : ScanSubmit :=
  if jsTrim prompt = "" ∨ apiUrl = "" then .validationError
  else .post (apiUrl ++ "/scan") prompt

/-- onScan of the first variant (src/app/page.tsx lines 55-66): no emptiness
guard at all; it always issues POST API_BASE/chat with {prompt}. -/
def onScan (apiBase prompt : String) : ScanSubmit :=
  .post (apiBase ++ "/chat") prompt

/-- Network calls a submit action issues. -/
def scanNetworkCalls : ScanSubmit → Nat
  | .validationError => 0
  | .post _ _ => 1

/-- Transport failures (spec taxonomy; in the source: the abort of the
timed-out fetch, a fetch rejection, or the throw on !res.ok). -/
inductive TransportError
  | timeout
  | network
  | http (status : Nat) (body : String)
deriving DecidableEq

/-- Incident of the third variant (interface Incident,
src/unnamed/part_000 lines 12-18). -/
structure Incident where
  id : Int
  time : String
  provider : String
  flagged : Bool
  redactions : List RedactionType
deriving DecidableEq

/-- ScanResponse of the third variant (interface ScanResponse,
src/unnamed/part_000 line 21). -/
structure ScanResponse where
  raw_output : String
  redacted_output : String
  flagged : Bool
  incidents : List Incident
deriving DecidableEq

/-- Scan result the third variant stores (src/unnamed/part_000 lines 63-72):
the awaited fetchJSON result on success, the catch's placeholder object on
any transport failure. -/
def scanResultOf (r : Except TransportError ScanResponse) : ScanResponse :=
  match r with
  | .ok s => s
  | .error _ =>
    { raw_output := "—", redacted_output := "Request failed. See console for details.",
      flagged := false, incidents := [] }

/-- Redaction entry in object form ({ type, value }, interface LogRow of
the second variant, src/app/page.tsx line 213). -/
structure RedactionObj where
  type : String
  value : String
deriving DecidableEq

/-- Log row of the second variant (interface LogRow,
src/app/page.tsx lines 208-214). -/
structure LogRow where
  id : Int
  timestamp : String
  provider : String
  flagged : Bool
  redactions : List RedactionObj
deriving DecidableEq

/-- Dashboard state slice loadDashboard touches (second variant): the
metrics and logs React states plus the loadingDash flag. -/
structure DashState where
  metrics : Option MetricsPayload
  logs : List LogRow
  loadingDash : Bool
deriving DecidableEq

/-- Promise.all on two settled promises: fulfilled with the pair iff both
are fulfilled, rejected otherwise. -/
def promiseAll2 {α β ε : Type} (a : Except ε α) (b : Except ε β) : Except ε (α × β) :=
  match a, b with
  | .ok x, .ok y => .ok (x, y)
  | .error e, _ => .error e
  | _, .error e => .error e

/-- loadDashboard of the second variant (src/app/page.tsx lines 259-275)
applied to the settled results of its two concurrent fetches: on Promise.all
success both setMetrics and setLogs run; on rejection the catch only logs to
the console and touches neither; finally clears loadingDash either way. -/
def loadDashboard (st : DashState) (m : Except TransportError MetricsPayload)
    (l : Except TransportError (List LogRow)) : DashState :=
  match promiseAll2 m l with
  | .ok (mv, lv) => { metrics := some mv, logs := lv, loadingDash := false }
  | .error _ => { st with loadingDash := false }

/-- Post-scan dashboard refresh of the first variant (src/app/page.tsx lines
77-84): Promise.all over the two fetches (fetchWithTimeout resolves on any
HTTP status), then if (m.ok) setMetrics(...) and if (lg.ok) setLogs(...)
independently. Each sub-result carries res.ok and the parsed body. -/
def refreshA (st : DashState) (m : Except TransportError (Bool × MetricsPayload))
    (l : Except TransportError (Bool × List LogRow)) : DashState :=
  match promiseAll2 m l with
  | .error _ => st
  | .ok ((mOk, mv), (lOk, lv)) =>
    let st1 := if mOk then { st with metrics := some mv } else st
    if lOk then { st1 with logs := lv } else st1

/-- Total-requests KPI text of the second variant (src/app/page.tsx line
346): loadingDash ? "—" : metrics?.total_requests ?? 0. -/
def kpiTotalText (loadingDash : Bool) (metrics : Option MetricsPayload) : String :=
  if loadingDash then "—"
  else toString ((metrics.bind MetricsPayload.total_requests).getD 0)

/-- Flagged-outputs KPI text of the second variant (src/app/page.tsx line
352): loadingDash ? "—" : flaggedOutputs. -/
def kpiFlaggedText (loadingDash : Bool) (metrics : Option MetricsPayload) : String :=
  if loadingDash then "—" else toString (flaggedOutputs metrics)

/-- Flag-rate KPI text of the second variant (src/app/page.tsx line 358):
loadingDash ? "—" : formatRate(metrics?.flag_rate ?? 0). -/
def kpiRateText (loadingDash : Bool) (metrics : Option MetricsPayload) : String :=
  if loadingDash then "—"
  else formatRateB (some ((metrics.bind MetricsPayload.flag_rate).getD 0))

/-- Total-requests KPI value of the first variant (src/app/page.tsx line
105): metrics?.total_requests ?? 0, with no loading placeholder. -/
def kpiTotalValueA (metrics : Option MetricsPayload) : Int :=
  (metrics.bind MetricsPayload.total_requests).getD 0

/-- Raw HTTP response: res.ok, res.status and the body text. -/
structure RawResponse where
  ok : Bool
  status : Nat
  body : String
deriving DecidableEq

/-- fetchWithTimeout of the first variant (src/app/page.tsx lines 17-26)
against a network whose response, if any, arrives t ms after the call: the
AbortController's timer fires at ms, so a response arriving strictly earlier
is returned and otherwise the fetch aborts, rejecting; the rejection of a
never-settling call is the abort at the deadline. Second component: fetch
calls issued by the invocation (the body contains exactly one fetch and no
retry loop). -/
def fetchWithTimeout (ms : Nat) (net : Option (Nat × RawResponse)) :
    Except TransportError RawResponse × Nat :=
  match net with
  | none => (.error .timeout, 1)
  | some (t, r) => (if t < ms then .ok r else .error .timeout, 1)

/-- fetchJSON of the second and third variants (src/app/page.tsx lines
231-238, src/unnamed/part_000 lines 26-30) against the same network model: a
bare fetch with no timer, so when the response never arrives the awaited
call never settles (none); a settled non-2xx response is thrown as an
HttpError and a 2xx is returned. One fetch call per invocation, no retry. -/
def fetchJSON (net : Option (Nat × RawResponse)) :
    Option (Except TransportError RawResponse) × Nat :=
  match net with
  | none => (none, 1)
  | some (_, r) =>
    (some (if r.ok then .ok r else .error (.http r.status r.body)), 1)

/-- Wake Controller phases (spec §4.5 WakeState). -/
inductive WakePhase
  | Idle | Polling | Succeeded | TimedOut
deriving DecidableEq

/-- Modelled from the spec: the Wake Controller polling loop of §4.5 is not
implemented under src/ (src/app/page.tsx lines 36-52 issue only a single
mount-time health probe); modelled faithfully to the spec's words: deadline
75 s after start, probe the service root, a 2xx transitions to Succeeded
immediately, a probe error or non-2xx is swallowed and the loop waits a
fixed 1.5 s before retrying, and reaching the deadline transitions to
TimedOut. `probe t` tells whether the probe issued t ms after start gets a
2xx; the result is the elapsed time at the terminal transition and the
terminal phase. -/
def wakePoll (probe : Nat → Bool) (t : Nat) : Nat × WakePhase :=
  if 75000 ≤ t then (t, .TimedOut)
  else if probe t then (t, .Succeeded)
  else wakePoll probe (t + 1500)
termination_by 75000 - t
decreasing_by omega

/-- Modelled from the spec: outcome of one wake run (§4.5) — elapsed time,
terminal phase, dashboard refreshes issued on reaching the terminal phase,
and the phase the controller returns to afterwards. -/
structure WakeOutcome where
  elapsedMs : Nat
  terminal : WakePhase
  refreshes : Nat
  phaseAfter : WakePhase
deriving DecidableEq

/-- Modelled from the spec: a full wake run from start() — poll from t = 0,
then on either terminal phase trigger exactly one dashboard refresh and
return to Idle. -/
def wakeController (probe : Nat → Bool) : WakeOutcome :=
  let r := wakePoll probe 0
  { elapsedMs := r.1, terminal := r.2, refreshes := 1, phaseAfter := .Idle }

/-- JavaScript Array.prototype.join(", "). -/
def joinComma : List String → String
  | [] => ""
  | [s] => s
  | s :: rest => s ++ ", " ++ joinComma rest

/-- Redactions table cell over the object form (second variant,
src/app/page.tsx lines 428-431, and first variant lines 159-161):
row.redactions?.length ? row.redactions.map(r => r.type).join(", ") : "—". -/
def displayRedactionsObj (rs : List RedactionObj) : String :=
  if rs.length = 0 then "—" else joinComma (rs.map RedactionObj.type)

/-- Redactions table cell over the bare-tag form (third variant,
src/unnamed/part_000 line 176): it.redactions.join(", ") || "—"; the empty
string is the falsy case. -/
def displayRedactionsBare (rs : List RedactionType) : String :=
  if joinComma (rs.map tagStr) = "" then "—" else joinComma (rs.map tagStr)

/-- Evaluation of toFixed1 at 0: (0).toFixed(1) is "0.0". -/
theorem toFixed1_zero : toFixed1 0 = "0.0" := by
  have h : ⌊(0 : ℚ) * 10 + 1 / 2⌋ = 0 := by norm_num
  unfold toFixed1
  rw [h]
  rfl

/-- Every redaction tag prints as a nonempty string. -/
theorem tagStr_length_pos (t : RedactionType) : 0 < (tagStr t).length := by
  cases t <;> decide

/-- Joining a list headed by a nonempty string is nonempty. -/
theorem joinComma_cons_ne_empty (s : String) (l : List String) (hs : 0 < s.length) :
    joinComma (s :: l) ≠ "" := by
  cases l with
  | nil =>
    intro h
    rw [joinComma] at h
    have := congrArg String.length h
    simp at this
    omega
  | cons a l =>
    intro h
    have := congrArg String.length h
    simp [joinComma, String.length_append] at this
    omega

/-- Polling against probes that all fail ends TimedOut at or past the
deadline. -/
theorem wakePoll_all_fail (probe : Nat → Bool) (h : ∀ t, probe t = false) :
    ∀ n t, 75000 - t ≤ n →
      (wakePoll probe t).2 = .TimedOut ∧ 75000 ≤ (wakePoll probe t).1 := by
  intro n
  induction n with
  | zero =>
    intro t ht
    have h75 : 75000 ≤ t := by omega
    rw [wakePoll.eq_def]
    simp [h75]
  | succ n ih =>
    intro t ht
    rw [wakePoll.eq_def]
    by_cases h75 : 75000 ≤ t
    · simp [h75]
    · simp [h75, h t]
      exact ih (t + 1500) (by omega)

/-- C1: for a metrics payload in which exactly one of the aliased fields
flagged_count / flagged_outputs is present with integer value n, the
flagged-count normalization yields n in both cases; and the first present
field in the fixed precedence order (flagged_outputs before flagged_count)
is chosen, the rest discarded. -/
theorem flaggedOutputs_alias (m : MetricsPayload) (n : Int)
    (h : (m.flagged_outputs = some n ∧ m.flagged_count = none) ∨
         (m.flagged_outputs = none ∧ m.flagged_count = some n)) :
    flaggedOutputs (some m) = n ∧
      ∀ m2 : MetricsPayload, ∀ a b : Int, m2.flagged_outputs = some a →
        m2.flagged_count = some b → flaggedOutputs (some m2) = a := by
  constructor
  · rcases h with ⟨h1, h2⟩ | ⟨h1, h2⟩ <;> simp [flaggedOutputs, h1, h2]
  · intro m2 a b h1 h2
    simp [flaggedOutputs, h1]

/-- C1 witness: the payload carrying only flagged_count = 3, and via the
precedence conjunct the general case. -/
theorem flaggedOutputs_alias_witness :
    flaggedOutputs (some ⟨none, some 3, none, none⟩) = 3 ∧
      ∀ m2 : MetricsPayload, ∀ a b : Int, m2.flagged_outputs = some a →
        m2.flagged_count = some b → flaggedOutputs (some m2) = a :=
  flaggedOutputs_alias ⟨none, some 3, none, none⟩ 3 (Or.inr ⟨rfl, rfl⟩)

/-- C2: a redaction list in object form and one in bare-tag form carrying
the same ordered tags display as the same string: the object form's type
components are extracted and both collapse to the same comma-joined cell
(or the placeholder for the empty list). -/
theorem redactions_display_agree (objs : List RedactionObj) (tags : List RedactionType)
    (h : objs.map RedactionObj.type = tags.map tagStr) :
    displayRedactionsObj objs = displayRedactionsBare tags := by
  cases tags with
  | nil =>
    have h0 : objs.map RedactionObj.type = [] := by simpa using h
    have hobj : objs = [] := List.map_eq_nil_iff.mp h0
    subst hobj
    simp [displayRedactionsObj, displayRedactionsBare, joinComma]
  | cons t ts =>
    have hne : joinComma (tagStr t :: ts.map tagStr) ≠ "" :=
      joinComma_cons_ne_empty (tagStr t) (ts.map tagStr) (tagStr_length_pos t)
    have hlen : objs.length ≠ 0 := by
      have hl := congrArg List.length h
      simp at hl
      omega
    simp [displayRedactionsObj, displayRedactionsBare, hne, hlen, h]

/-- C2 witness: the object list for email, phone displays exactly as the
bare list [email, phone]. -/
theorem redactions_display_agree_witness :
    displayRedactionsObj [⟨"email", "a"⟩, ⟨"phone", "b"⟩] =
      displayRedactionsBare [.email, .phone] :=
  redactions_display_agree _ _ rfl

/-- C3 counterexample: the first variant's scan handler issues its network
call even for the empty prompt — there is no local validation there. -/
theorem onScan_empty_prompt_cex :
    onScan "https://api.example" "" = .post "https://api.example/chat" "" ∧
      scanNetworkCalls (onScan "https://api.example" "") ≠ 0 :=
  ⟨by decide, by decide⟩

/-- C3 amended: onSubmitPrompt (second and third variants) rejects an empty
or whitespace-only prompt locally — the guard's early return, with no
network call. -/
theorem onSubmitPrompt_blank_rejected (apiUrl prompt : String)
    (h : jsTrim prompt = "") :
    onSubmitPrompt apiUrl prompt = .validationError ∧
      scanNetworkCalls (onSubmitPrompt apiUrl prompt) = 0 := by
  simp [onSubmitPrompt, scanNetworkCalls, h]

/-- C3 witness: the three-space prompt is rejected with no network call. -/
theorem onSubmitPrompt_blank_rejected_witness :
    onSubmitPrompt "https://api.example" "   " = .validationError ∧
      scanNetworkCalls (onSubmitPrompt "https://api.example" "   ") = 0 :=
  onSubmitPrompt_blank_rejected "https://api.example" "   " (by decide)

/-- C4: a scan whose transport fails, whatever the failure, stores the
placeholder: raw_output "—", a nonempty failure message, flagged false,
incidents empty — a renderable value, not an escaping rejection. -/
theorem scan_failure_placeholder (e : TransportError) :
    (scanResultOf (.error e)).raw_output = "—" ∧
      (scanResultOf (.error e)).redacted_output ≠ "" ∧
      (scanResultOf (.error e)).flagged = false ∧
      (scanResultOf (.error e)).incidents = [] := by
  refine ⟨rfl, ?_, rfl, rfl⟩
  show ("Request failed. See console for details." : String) ≠ ""
  decide

/-- C5 counterexample: the first variant's post-scan refresh, when the
metrics response is 2xx but the logs response is not, updates the metrics
state while the logs state keeps its old value — a partial application of
the snapshot. -/
theorem refreshA_partial_update_cex :
    (refreshA ⟨none, [], false⟩ (.ok (true, ⟨some 1, some 0, none, none⟩))
        (.ok (false, []))).metrics = some ⟨some 1, some 0, none, none⟩ ∧
      (⟨none, [], false⟩ : DashState).metrics ≠ some ⟨some 1, some 0, none, none⟩ ∧
      (refreshA ⟨none, [], false⟩ (.ok (true, ⟨some 1, some 0, none, none⟩))
        (.ok (false, []))).logs = (⟨none, [], false⟩ : DashState).logs :=
  ⟨by decide, by decide, by decide⟩

/-- C5 amended: loadDashboard (second variant) is atomic: if either
sub-fetch rejects, Promise.all rejects and neither the metrics state nor
the logs state is modified (only loadingDash clears); when both succeed,
both are replaced together. -/
theorem loadDashboard_atomic (st : DashState)
    (m : Except TransportError MetricsPayload)
    (l : Except TransportError (List LogRow)) :
    (((∃ e, m = .error e) ∨ (∃ e, l = .error e)) →
      loadDashboard st m l = { st with loadingDash := false }) ∧
    (∀ mv lv, m = .ok mv → l = .ok lv →
      loadDashboard st m l = { metrics := some mv, logs := lv, loadingDash := false }) := by
  constructor
  · rintro (⟨e, rfl⟩ | ⟨e, rfl⟩)
    · cases l <;> rfl
    · cases m <;> rfl
  · rintro mv lv rfl rfl
    rfl

/-- C6 counterexample: applying an earlier-issued load's late result after a
later load has been applied changes the published state — the stale result
is not discarded, there is no request token compared at apply time. -/
theorem loadDashboard_stale_overwrite_cex :
    loadDashboard
        (loadDashboard ⟨none, [], true⟩ (.ok ⟨some 2, some 1, none, none⟩) (.ok []))
        (.ok ⟨some 1, some 0, none, none⟩) (.ok []) ≠
      loadDashboard ⟨none, [], true⟩ (.ok ⟨some 2, some 1, none, none⟩) (.ok []) := by
  decide

/-- C6 amended: snapshots are applied unconditionally in completion order —
every successful load overwrites the current state wholesale, regardless of
what was applied before (last-completed-wins, with no issue-order token). -/
theorem loadDashboard_unconditional_apply (st : DashState) (mv : MetricsPayload)
    (lv : List LogRow) :
    loadDashboard st (.ok mv) (.ok lv) =
      { metrics := some mv, logs := lv, loadingDash := false } := rfl

/-- C7: the wake controller run against a backend answering 2xx on the first
probe ends Succeeded instantly, well inside the 75 s deadline; against a
backend that never answers it retries at the fixed 1.5 s interval and ends
TimedOut once the deadline is reached; in either terminal case it issues
exactly one dashboard refresh and returns to Idle. -/
theorem wakeController_spec (probe : Nat → Bool) :
    (probe 0 = true →
      (wakeController probe).terminal = .Succeeded ∧
        (wakeController probe).elapsedMs < 75000) ∧
    ((∀ t, probe t = false) →
      (wakeController probe).terminal = .TimedOut ∧
        75000 ≤ (wakeController probe).elapsedMs) ∧
    (∀ t, ¬ 75000 ≤ t → probe t = false →
      wakePoll probe t = wakePoll probe (t + 1500)) ∧
    (wakeController probe).refreshes = 1 ∧
    (wakeController probe).phaseAfter = .Idle := by
  refine ⟨?_, ?_, ?_, rfl, rfl⟩
  · intro h0
    have hw : wakePoll probe 0 = (0, .Succeeded) := by
      rw [wakePoll.eq_def]
      norm_num [h0]
    constructor
    · show (wakePoll probe 0).2 = .Succeeded
      rw [hw]
    · show (wakePoll probe 0).1 < 75000
      rw [hw]
      norm_num
  · intro hf
    have h := wakePoll_all_fail probe hf 75000 0 (by omega)
    exact ⟨h.1, h.2⟩
  · intro t h75 hp
    conv_lhs => rw [wakePoll.eq_def]
    simp [h75, hp]

/-- C8 counterexample: a fetchJSON invocation whose response never arrives
never settles — no Timeout error is ever produced for it, the caller is
left waiting indefinitely. -/
theorem fetchJSON_no_timeout_cex :
    (fetchJSON none).1 = none ∧
      (fetchJSON none).1 ≠ some (.error .timeout) :=
  ⟨rfl, by simp [fetchJSON]⟩

/-- C8 amended: fetchWithTimeout (first variant) enforces the hard per-call
timeout — a response that never arrives, or arrives at or after ms, yields a
Timeout error — and both transports issue exactly one network call per
invocation, never retrying; fetchJSON (second and third variants) enforces
no timeout and never settles when the response never arrives. -/
theorem transport_timeout_policy (ms : Nat) (net : Option (Nat × RawResponse)) :
    (net = none → (fetchWithTimeout ms net).1 = .error .timeout) ∧
    (∀ t r, net = some (t, r) → ms ≤ t →
      (fetchWithTimeout ms net).1 = .error .timeout) ∧
    (fetchWithTimeout ms net).2 = 1 ∧
    (fetchJSON net).2 = 1 ∧
    (fetchJSON none).1 = none := by
  refine ⟨?_, ?_, ?_, ?_, rfl⟩
  · rintro rfl
    rfl
  · rintro t r rfl hle
    have hnl : ¬ t < ms := by omega
    simp [fetchWithTimeout, hnl]
  · cases net <;> rfl
  · cases net <;> rfl

/-- C9 counterexample: while the dashboard is loading, the second variant's
total-requests KPI card shows the placeholder dash, not the numeric zero. -/
theorem kpi_loading_placeholder_cex :
    kpiTotalText true none = "—" ∧ kpiTotalText true none ≠ "0" :=
  ⟨rfl, by decide⟩

/-- C9 amended: on load failure with nothing yet loaded the KPI cards show
the numeric zero fallbacks ("0", "0", "0.0%"); while loading, the second
and third variants show the placeholder dash (the first variant always
shows the zeros); no state shows a blank value. -/
theorem kpi_zero_fallback :
    (kpiTotalText false none = "0" ∧ kpiFlaggedText false none = "0" ∧
      kpiRateText false none = "0.0%") ∧
    (kpiTotalText true none = "—" ∧ kpiFlaggedText true none = "—" ∧
      kpiRateText true none = "—") ∧
    kpiTotalValueA none = 0 ∧
    (kpiTotalText false none ≠ "" ∧ kpiFlaggedText false none ≠ "" ∧
      kpiRateText false none ≠ "" ∧ kpiTotalText true none ≠ "") := by
  have hrate : kpiRateText false none = "0.0%" := by
    show toFixed1 ((0 : ℚ) * 100) ++ "%" = "0.0%"
    rw [zero_mul, toFixed1_zero]
    rfl
  refine ⟨⟨by decide, by decide, hrate⟩, ⟨rfl, rfl, rfl⟩, rfl,
    by decide, by decide, ?_, by decide⟩
  rw [hrate]
  decide

/-- C10 counterexample: the two formatRate implementations disagree at NaN —
the second variant returns "0%" there, the third "0.0%". -/
theorem formatRate_nan_cex : formatRateB none ≠ formatRateC none := by
  have h2 : formatRateC none = "0.0%" := by
    show toFixed1 ((0 : ℚ) * 100) ++ "%" = "0.0%"
    rw [zero_mul, toFixed1_zero]
    rfl
  rw [h2]
  decide

/-- C10 amended: on every non-NaN number the two formatRate implementations
return the same string ((q || 0) is q there). -/
theorem formatRate_agree_on_numbers (q : ℚ) :
    formatRateB (some q) = formatRateC (some q) := rfl

end Guardrail
